import Mathlib

/-!
Shallow embedding of the Markowitz portfolio optimizer core, from
portfolio_optimizer/model.py and portfolio_optimizer/optimization.py.

Modelling conventions.  Python floats are modelled as real numbers; the two
non-finite values the code can actually produce are made explicit: the type
PyFloat is a real value, negative infinity, or NaN.  numpy.sqrt applied to a
negative number yields NaN, modelled with Option: none stands for NaN.  A
numpy shape mismatch raises a ValueError, modelled with Except: the error
branch stands for the raised exception.  The scipy SLSQP solver is external
to the repository, so it is passed as an oracle argument mapping the
description of one minimize call to a result record mirroring the fields of
scipy.optimize.OptimizeResult that the code and the spec mention.
-/

namespace PortfolioOptimizer

noncomputable section

abbrev Vec := List ℝ
abbrev Mat := List (List ℝ)

/-- Elementwise dot product of two real lists, as numpy computes it. -/
def dotR (xs ys : Vec) : ℝ := (List.zipWith (fun a b => a * b) xs ys).sum

/-- numpy.dot on two 1-D arrays: a ValueError (none) when the lengths differ. -/
def dotF (xs ys : Vec) : Option ℝ :=
  if xs.length = ys.length then some (dotR xs ys) else none

/-- Matrix-vector product, rowwise dot products. -/
def matvecR (C : Mat) (w : Vec) : Vec := C.map (fun row => dotR row w)

/-- numpy.dot of a 2-D with a 1-D array: defined when every row matches the
vector length, a ValueError (none) otherwise. -/
def matvec (C : Mat) (w : Vec) : Option Vec :=
  if ∀ row ∈ C, row.length = w.length then some (matvecR C w) else none

/-- Column count of a matrix stored as a list of rows. -/
def matCols (C : Mat) : ℕ := (C.headD []).length

/-- numpy.sqrt: NaN (none) on negative input, otherwise the real square root. -/
def sqrtF (x : ℝ) : Option ℝ := if x < 0 then none else some (Real.sqrt x)

/-- A Python float as produced by this code: a real number, minus infinity
(the sentinel the objectives return), or NaN. -/
inductive PyFloat where
  | val : ℝ → PyFloat
  | negInf : PyFloat
  | nan : PyFloat

/-- model.py get_portfolio_stats: the return is the dot product of weights and
mean returns, the variance is the quadratic form, and the volatility is
numpy.sqrt of the variance with no clamping, so a negative variance yields
NaN (none).  A dimension mismatch raises through numpy (error branch). -/
def get_portfolio_stats (weights mean_returns : Vec) (cov_matrix : Mat) :
    Except String (ℝ × Option ℝ) :=
  match dotF weights mean_returns with
  | none => .error "shapes not aligned"
  | some portfolio_return =>
    match matvec cov_matrix weights with
    | none => .error "shapes not aligned"
    | some cw =>
      match dotF weights cw with
      | none => .error "shapes not aligned"
      | some portfolio_variance =>
        .ok (portfolio_return, sqrtF portfolio_variance)

/-- The Portfolio Statistics Evaluator as the spec words it in section 4.1:
the volatility is the square root of the variance clamped below at zero.
Declared only to compare the spec sentence against the code. -/
def get_portfolio_stats_spec (weights mean_returns : Vec) (cov_matrix : Mat) :
    Except String (ℝ × ℝ) :=
  match dotF weights mean_returns with
  | none => .error "shapes not aligned"
  | some portfolio_return =>
    match matvec cov_matrix weights with
    | none => .error "shapes not aligned"
    | some cw =>
      match dotF weights cw with
      | none => .error "shapes not aligned"
      | some portfolio_variance =>
        .ok (portfolio_return, Real.sqrt (max portfolio_variance 0))

/-- model.py get_negative_sharpe_ratio.  When the volatility is NaN the Python
zero test is false and the division propagates NaN; when it is exactly zero
the code returns 0 if the return equals the risk-free rate and minus infinity
otherwise; else it returns the negated Sharpe ratio. -/
def get_negative_sharpe_ratio (weights mean_returns : Vec) (cov_matrix : Mat)
    (risk_free_rate : ℝ) : Except String PyFloat :=
  match get_portfolio_stats weights mean_returns cov_matrix with
  | .error e => .error e
  | .ok (_, none) => .ok .nan
  | .ok (portfolio_return, some v) =>
    if v = 0 then
      .ok (if portfolio_return = risk_free_rate then .val 0 else .negInf)
    else
      .ok (.val (-((portfolio_return - risk_free_rate) / v)))

/-- optimization.py get_negative_naive_sharpe_ratio: the risk proxy is the
linear dot product of weights with the individual volatilities. -/
def get_negative_naive_sharpe_ratio
    (weights mean_returns individual_volatilities : Vec)
    (risk_free_rate : ℝ) : Except String PyFloat :=
  match dotF weights mean_returns with
  | none => .error "shapes not aligned"
  | some portfolio_return =>
    match dotF weights individual_volatilities with
    | none => .error "shapes not aligned"
    | some naive_volatility =>
      if naive_volatility = 0 then
        .ok (if portfolio_return = risk_free_rate then .val 0 else .negInf)
      else
        .ok (.val (-((portfolio_return - risk_free_rate) / naive_volatility)))

/-- Division instrumented to flag division by zero: none signals that a
division by zero was attempted. -/
def safeDiv (a b : ℝ) : Option ℝ := if b = 0 then none else some (a / b)

/-- get_negative_sharpe_ratio with its division routed through safeDiv, so a
division by zero would surface as the ok-none outcome. -/
def negative_sharpe_checked (weights mean_returns : Vec) (cov_matrix : Mat)
    (risk_free_rate : ℝ) : Except String (Option PyFloat) :=
  match get_portfolio_stats weights mean_returns cov_matrix with
  | .error e => .error e
  | .ok (_, none) => .ok (some .nan)
  | .ok (portfolio_return, some v) =>
    if v = 0 then
      .ok (some (if portfolio_return = risk_free_rate then .val 0 else .negInf))
    else
      match safeDiv (portfolio_return - risk_free_rate) v with
      | none => .ok none
      | some q => .ok (some (.val (-q)))

/-- get_negative_naive_sharpe_ratio with its division routed through safeDiv,
so a division by zero would surface as the ok-none outcome. -/
def negative_naive_sharpe_checked
    (weights mean_returns individual_volatilities : Vec)
    (risk_free_rate : ℝ) : Except String (Option PyFloat) :=
  match dotF weights mean_returns with
  | none => .error "shapes not aligned"
  | some portfolio_return =>
    match dotF weights individual_volatilities with
    | none => .error "shapes not aligned"
    | some naive_volatility =>
      if naive_volatility = 0 then
        .ok (some (if portfolio_return = risk_free_rate then .val 0 else .negInf))
      else
        match safeDiv (portfolio_return - risk_free_rate) naive_volatility with
        | none => .ok none
        | some q => .ok (some (.val (-q)))

/-- The local helper get_volatility in optimization.py: the second component
of get_portfolio_stats as a Python float (NaN when the variance was
negative). -/
def get_volatility (weights mean_returns : Vec) (cov_matrix : Mat) :
    Except String PyFloat :=
  match get_portfolio_stats weights mean_returns cov_matrix with
  | .error e => .error e
  | .ok (_, none) => .ok .nan
  | .ok (_, some v) => .ok (.val v)

/-- scipy.optimize.OptimizeResult: the fields the repository reads plus the
fields the spec claims a failure report carries (last objective value and
iteration count). -/
structure OptResult where
  success : Bool
  x : Vec
  objValue : ℝ
  message : String
  nit : ℕ

/-- One call to scipy.optimize.minimize exactly as a call site in
optimization.py issues it: the objective with its captured arguments, the
start point, the method string, the box bounds, which equality constraints
are installed, and the tolerance and iteration options of the call (none
when the call site does not pass that argument). -/
structure MinimizeProblem where
  objective : Vec → Except String PyFloat
  x0 : Vec
  method : String
  bounds : List (ℝ × ℝ)
  sumToOne : Bool
  targetReturn : Option ℝ
  tol : Option ℝ
  optionsFtol : Option ℝ
  optionsMaxiter : Option ℕ

/-- The equal-weight start vector used by every call site. -/
def equalWeights (n : ℕ) : Vec := List.replicate n (1 / (n : ℝ))

/-- The minimize call issued by find_max_sharpe_portfolio, lines 22 to 29 of
optimization.py: no tol and no options argument appears there. -/
def maxSharpeProblem (mean_returns : Vec) (cov_matrix : Mat)
    (risk_free_rate : ℝ) : MinimizeProblem :=
  { objective := fun w => get_negative_sharpe_ratio w mean_returns cov_matrix risk_free_rate
    x0 := equalWeights mean_returns.length
    method := "SLSQP"
    bounds := List.replicate mean_returns.length (0, 1)
    sumToOne := true
    targetReturn := none
    tol := none
    optionsFtol := none
    optionsMaxiter := none }

/-- The minimize call issued by find_min_volatility_portfolio, lines 54 to 61
of optimization.py. -/
def minVolProblem (mean_returns : Vec) (cov_matrix : Mat) : MinimizeProblem :=
  { objective := fun w => get_volatility w mean_returns cov_matrix
    x0 := equalWeights mean_returns.length
    method := "SLSQP"
    bounds := List.replicate mean_returns.length (0, 1)
    sumToOne := true
    targetReturn := none
    tol := none
    optionsFtol := none
    optionsMaxiter := none }

/-- The minimize call issued by find_max_naive_sharpe_portfolio, lines 154 to
161 of optimization.py. -/
def naiveSharpeProblem (mean_returns individual_volatilities : Vec)
    (risk_free_rate : ℝ) : MinimizeProblem :=
  { objective := fun w =>
      get_negative_naive_sharpe_ratio w mean_returns individual_volatilities risk_free_rate
    x0 := equalWeights mean_returns.length
    method := "SLSQP"
    bounds := List.replicate mean_returns.length (0, 1)
    sumToOne := true
    targetReturn := none
    tol := none
    optionsFtol := none
    optionsMaxiter := none }

/-- The minimize call issued for one frontier point, lines 100 to 107 of
optimization.py: the extra equality constraint pins the portfolio return to
the target. -/
def frontierPointProblem (mean_returns : Vec) (cov_matrix : Mat)
    (target_return : ℝ) : MinimizeProblem :=
  { objective := fun w => get_volatility w mean_returns cov_matrix
    x0 := equalWeights mean_returns.length
    method := "SLSQP"
    bounds := List.replicate mean_returns.length (0, 1)
    sumToOne := true
    targetReturn := some target_return
    tol := none
    optionsFtol := none
    optionsMaxiter := none }

/-- optimization.py find_max_sharpe_portfolio with the scipy solver supplied
as an oracle.  On failure the code raises RuntimeError interpolating only the
solver message. -/
def find_max_sharpe_portfolio (minimize : MinimizeProblem → OptResult)
    (mean_returns : Vec) (cov_matrix : Mat) (risk_free_rate : ℝ) :
    Except String Vec :=
  let result := minimize (maxSharpeProblem mean_returns cov_matrix risk_free_rate)
  if result.success then .ok result.x
  else .error ("Optimization failed: " ++ result.message)

/-- optimization.py find_min_volatility_portfolio with the scipy solver
supplied as an oracle. -/
def find_min_volatility_portfolio (minimize : MinimizeProblem → OptResult)
    (mean_returns : Vec) (cov_matrix : Mat) : Except String Vec :=
  let result := minimize (minVolProblem mean_returns cov_matrix)
  if result.success then .ok result.x
  else .error ("Optimization failed: " ++ result.message)

/-- optimization.py find_max_naive_sharpe_portfolio with the scipy solver
supplied as an oracle. -/
def find_max_naive_sharpe_portfolio (minimize : MinimizeProblem → OptResult)
    (mean_returns individual_volatilities : Vec) (risk_free_rate : ℝ) :
    Except String Vec :=
  let result := minimize
    (naiveSharpeProblem mean_returns individual_volatilities risk_free_rate)
  if result.success then .ok result.x
  else .error ("Naive optimization failed: " ++ result.message)

/-- pandas Series.max on a nonempty list.  pandas yields NaN on an empty
series; that case is not modelled and the frontier theorems below do not rely
on it. -/
def seriesMax : Vec → ℝ
  | [] => 0
  | x :: xs => xs.foldl max x

/-- The i-th of n equally spaced points from a to b, numpy.linspace style. -/
def linspaceAt (a b : ℝ) (n i : ℕ) : ℝ :=
  a + (b - a) * (i : ℝ) / ((n : ℝ) - 1)

/-- numpy.linspace with its default endpoint inclusion: n equally spaced
points from a to b; for n = 1 the single point is a. -/
def linspace (a b : ℝ) (n : ℕ) : List ℝ :=
  if n ≤ 1 then (List.range n).map (fun _ => a)
  else (List.range n).map (linspaceAt a b n)

/-- optimization.py calculate_efficient_frontier with the scipy solver
supplied as an oracle.  The min-volatility solve runs first and its failure
propagates; each target then gets its own constrained solve, recording the
achieved objective value on success and NaN on failure. -/
def calculate_efficient_frontier (minimize : MinimizeProblem → OptResult)
    (mean_returns : Vec) (cov_matrix : Mat) (num_portfolios : ℕ) :
    Except String (List ℝ × List PyFloat) :=
  match find_min_volatility_portfolio minimize mean_returns cov_matrix with
  | .error e => .error e
  | .ok min_vol_weights =>
    match get_portfolio_stats min_vol_weights mean_returns cov_matrix with
    | .error e => .error e
    | .ok (min_vol_return, _) =>
      let max_return := seriesMax mean_returns
      let target_returns := linspace min_vol_return max_return num_portfolios
      let frontier_volatilities := target_returns.map (fun target_return =>
        let result := minimize (frontierPointProblem mean_returns cov_matrix target_return)
        if result.success then PyFloat.val result.objValue else PyFloat.nan)
      .ok (target_returns, frontier_volatilities)

/-- A solver oracle returning the same result on every call. -/
def oracleConst (res : OptResult) : MinimizeProblem → OptResult := fun _ => res

/-- A solver oracle distinguishing the frontier point solves (those carrying
a target-return constraint) from the task solves. -/
def oracleSplit (resTask resPoint : OptResult) : MinimizeProblem → OptResult :=
  fun p =>
    match p.targetReturn with
    | none => resTask
    | some _ => resPoint

/-- A concrete successful solver outcome at the half-and-half weights. -/
def halfRes : OptResult :=
  { success := true, x := [1 / 2, 1 / 2], objValue := 0, message := "", nit := 5 }

/-- A concrete failed solver outcome. -/
def failResA : OptResult :=
  { success := false, x := [], objValue := 1, message := "msg", nit := 7 }

/-- A concrete failed solver outcome with a different last objective value
and iteration count but the same message. -/
def failResB : OptResult :=
  { success := false, x := [], objValue := 2, message := "msg", nit := 9 }

/-- A concrete successful solver outcome at the single-asset weights. -/
def okOne : OptResult :=
  { success := true, x := [1], objValue := 0, message := "", nit := 3 }

/-- A concrete successful per-point solver outcome achieving volatility 1. -/
def okPoint : OptResult :=
  { success := true, x := [1], objValue := 1, message := "", nit := 4 }

lemma matvecR_length (C : Mat) (w : Vec) : (matvecR C w).length = C.length := by
  simp [matvecR]

lemma stats_ok_of_shape (w m : Vec) (C : Mat)
    (h1 : w.length = m.length) (h2 : C.length = w.length)
    (h3 : ∀ row ∈ C, row.length = w.length) :
    get_portfolio_stats w m C =
      .ok (dotR w m, sqrtF (dotR w (matvecR C w))) := by
  have hm : matvec C w = some (matvecR C w) := by unfold matvec; rw [if_pos h3]
  have hd1 : dotF w m = some (dotR w m) := by simp [dotF, h1]
  have hd2 : dotF w (matvecR C w) = some (dotR w (matvecR C w)) := by
    simp [dotF, matvecR_length, h2]
  simp [ get_portfolio_stats, hd1, hm, hd2]

lemma stats_error_of_mismatch (w m : Vec) (C : Mat)
    (hrect : ∀ row ∈ C, row.length = matCols C)
    (hmis : ¬ (w.length = m.length ∧ C.length = w.length ∧ matCols C = w.length)) :
    get_portfolio_stats w m C = .error "shapes not aligned" := by
  by_cases h1 : w.length = m.length
  · have hd1 : dotF w m = some (dotR w m) := by simp [dotF, h1]
    by_cases h2 : ∀ row ∈ C, row.length = w.length
    · have hm : matvec C w = some (matvecR C w) := by unfold matvec; rw [if_pos h2]
      have hlen : C.length ≠ w.length := by
        rcases C with _ | ⟨row, rest⟩
        · intro hC
          apply hmis
          refine ⟨h1, hC, ?_⟩
          simp [matCols] at hC ⊢
          omega
        · intro hC
          apply hmis
          refine ⟨h1, hC, ?_⟩
          have := h2 row (by simp)
          have := hrect row (by simp)
          simp [matCols] at *
          omega
      have hd2 : dotF w (matvecR C w) = none := by
        simp [dotF, matvecR_length]
        omega
      simp [ get_portfolio_stats, hd1, hm, hd2]
    · have hm : matvec C w = none := by unfold matvec; rw [if_neg h2]
      simp [ get_portfolio_stats, hd1, hm]
  · have hd1 : dotF w m = none := by simp [dotF, h1]
    simp [ get_portfolio_stats, hd1]

lemma linspace_length (a b : ℝ) (n : ℕ) : (linspace a b n).length = n := by
  unfold linspace
  split <;> simp

lemma linspace_one (a b : ℝ) : linspace a b 1 = [a] := by
  simp [linspace, List.range_succ]

lemma linspace_getD (a b : ℝ) (n i : ℕ) (h2 : 2 ≤ n) (hi : i < n) :
    (linspace a b n).getD i 0 = linspaceAt a b n i := by
  unfold linspace
  rw [if_neg (by omega)]
  rw [List.getD_eq_getElem?_getD, List.getElem?_map, List.getElem?_range hi]
  simp

lemma linspace_getD_zero (a b : ℝ) (n : ℕ) (h1 : 1 ≤ n) :
    (linspace a b n).getD 0 0 = a := by
  rcases Nat.lt_or_ge n 2 with h | h
  · have : n = 1 := by omega
    subst this
    rw [linspace_one]
    rfl
  · rw [linspace_getD a b n 0 h (by omega)]
    simp [linspaceAt]

lemma linspace_getD_last (a b : ℝ) (n : ℕ) (h2 : 2 ≤ n) :
    (linspace a b n).getD (n - 1) 0 = b := by
  rw [linspace_getD a b n (n - 1) h2 (by omega)]
  unfold linspaceAt
  have hc : ((n - 1 : ℕ) : ℝ) = (n : ℝ) - 1 := by
    have : 1 ≤ n := by omega
    push_cast [this]
    ring
  rw [hc]
  have hne : (n : ℝ) - 1 ≠ 0 := by
    have : (2 : ℝ) ≤ (n : ℝ) := by exact_mod_cast h2
    linarith
  field_simp

lemma linspace_spacing (a b : ℝ) (n i : ℕ) (h2 : 2 ≤ n) (hi : i + 1 < n) :
    (linspace a b n).getD (i + 1) 0 - (linspace a b n).getD i 0 =
      (b - a) / ((n : ℝ) - 1) := by
  rw [linspace_getD a b n (i + 1) h2 hi, linspace_getD a b n i h2 (by omega)]
  unfold linspaceAt
  have hne : (n : ℝ) - 1 ≠ 0 := by
    have : (2 : ℝ) ≤ (n : ℝ) := by exact_mod_cast h2
    linarith
  push_cast
  field_simp
  ring

lemma frontier_eq_of_min_vol_success (minimize : MinimizeProblem → OptResult)
    (m : Vec) (C : Mat) (n : ℕ) (a : ℝ) (vv : Option ℝ)
    (hs : (minimize (minVolProblem m C)).success = true)
    (hstats : get_portfolio_stats (minimize (minVolProblem m C)).x m C = .ok (a, vv)) :
    calculate_efficient_frontier minimize m C n =
      .ok (linspace a (seriesMax m) n,
        (linspace a (seriesMax m) n).map (fun t =>
          if (minimize (frontierPointProblem m C t)).success then
            PyFloat.val (minimize (frontierPointProblem m C t)).objValue
          else PyFloat.nan)) := by
  unfold calculate_efficient_frontier find_min_volatility_portfolio
  simp [hs, hstats]

/-- C1 counterexample: at weights [1], mean returns [1] and covariance
matrix [[-1]], the code evaluates numpy.sqrt on the negative variance -1 and
returns volatility NaN (none), while the claimed clamped form sqrt (max v 0)
would return volatility 0, so get_portfolio_stats does not implement the
claimed clamp and a negative variance yields a non-real volatility. -/
theorem C1_counterexample :
    get_portfolio_stats [1] [1] [[-1]] = .ok (1, none) ∧
    get_portfolio_stats_spec [1] [1] [[-1]] = .ok (1, 0) ∧
    get_portfolio_stats [1] [1] [[-1]] ≠ .ok (1, some 0) := by
  have hcode : get_portfolio_stats [1] [1] [[-1]] = .ok (1, none) := by
    simp [ get_portfolio_stats, dotF, dotR, matvec, matvecR, sqrtF]
  refine ⟨hcode, ?_, by simp [hcode]⟩
  simp [ get_portfolio_stats_spec, dotF, dotR, matvec, matvecR]

/-- C1 amended: under matching dimensions, get_portfolio_stats returns the
dot product of weights with mean returns together with the unclamped square
root of the quadratic form: the real square root when the variance is
nonnegative, and NaN (none) when the variance is negative; no clamp at zero
is applied. -/
theorem C1_amended (w m : Vec) (C : Mat)
    (h1 : w.length = m.length) (h2 : C.length = w.length)
    (h3 : ∀ row ∈ C, row.length = w.length) :
    get_portfolio_stats w m C = .ok (dotR w m, sqrtF (dotR w (matvecR C w))) ∧
    (0 ≤ dotR w (matvecR C w) →
      sqrtF (dotR w (matvecR C w)) = some (Real.sqrt (dotR w (matvecR C w)))) ∧
    (dotR w (matvecR C w) < 0 → sqrtF (dotR w (matvecR C w)) = none) := by
  refine ⟨stats_ok_of_shape w m C h1 h2 h3, ?_, ?_⟩
  · intro h
    rw [sqrtF, if_neg (not_lt.mpr h)]
  · intro h
    rw [sqrtF, if_pos h]

/-- C1 amended, witnessed: at weights [1, 0], mean returns [2, 3] and the
2 by 2 identity covariance, the stats are return 2 and volatility 1. -/
theorem C1_amended_witness :
    get_portfolio_stats [1, 0] [2, 3] [[1, 0], [0, 1]] = .ok (2, some 1) := by
  have h := (C1_amended [1, 0] [2, 3] [[1, 0], [0, 1]]
    (by simp) (by simp) (by simp)).1
  rw [h]
  norm_num [dotR, matvecR, sqrtF, Real.sqrt_one]

/-- C2: when the covariance-aware volatility is exactly zero, the negative
Sharpe objective returns 0 if the portfolio return equals the risk-free rate
and minus infinity otherwise, and the same holds for the naive objective
when the naive volatility is exactly zero; with nonzero volatility both
objectives return the negated excess return divided by that volatility. -/
theorem C2_zero_volatility_sentinels :
    (∀ w m : Vec, ∀ C : Mat, ∀ rf r : ℝ,
      get_portfolio_stats w m C = .ok (r, some 0) → r = rf →
        get_negative_sharpe_ratio w m C rf = .ok (.val 0)) ∧
    (∀ w m : Vec, ∀ C : Mat, ∀ rf r : ℝ,
      get_portfolio_stats w m C = .ok (r, some 0) → r ≠ rf →
        get_negative_sharpe_ratio w m C rf = .ok .negInf) ∧
    (∀ w m : Vec, ∀ C : Mat, ∀ rf r v : ℝ,
      get_portfolio_stats w m C = .ok (r, some v) → v ≠ 0 →
        get_negative_sharpe_ratio w m C rf = .ok (.val (-((r - rf) / v)))) ∧
    (∀ w m iv : Vec, ∀ rf : ℝ,
      w.length = m.length → w.length = iv.length → dotR w iv = 0 → dotR w m = rf →
        get_negative_naive_sharpe_ratio w m iv rf = .ok (.val 0)) ∧
    (∀ w m iv : Vec, ∀ rf : ℝ,
      w.length = m.length → w.length = iv.length → dotR w iv = 0 → dotR w m ≠ rf →
        get_negative_naive_sharpe_ratio w m iv rf = .ok .negInf) ∧
    (∀ w m iv : Vec, ∀ rf : ℝ,
      w.length = m.length → w.length = iv.length → dotR w iv ≠ 0 →
        get_negative_naive_sharpe_ratio w m iv rf =
          .ok (.val (-((dotR w m - rf) / dotR w iv)))) := by
  refine ⟨?_, ?_, ?_, ?_, ?_, ?_⟩
  · intro w m C rf r hstats hr
    simp [ get_negative_sharpe_ratio, hstats, hr]
  · intro w m C rf r hstats hr
    simp [ get_negative_sharpe_ratio, hstats, hr]
  · intro w m C rf r v hstats hv
    simp [ get_negative_sharpe_ratio, hstats, hv]
  · intro w m iv rf h1 h2 hz hr
    have hd1 : dotF w m = some (dotR w m) := by simp [dotF, h1]
    have hd2 : dotF w iv = some (dotR w iv) := by simp [dotF, h2]
    simp [ get_negative_naive_sharpe_ratio, hd1, hd2, hz, hr]
  · intro w m iv rf h1 h2 hz hr
    have hd1 : dotF w m = some (dotR w m) := by simp [dotF, h1]
    have hd2 : dotF w iv = some (dotR w iv) := by simp [dotF, h2]
    simp [ get_negative_naive_sharpe_ratio, hd1, hd2, hz, hr]
  · intro w m iv rf h1 h2 hv
    have hd1 : dotF w m = some (dotR w m) := by simp [dotF, h1]
    have hd2 : dotF w iv = some (dotR w iv) := by simp [dotF, h2]
    simp [ get_negative_naive_sharpe_ratio, hd1, hd2, hv]

/-- C2 witnessed at concrete inputs: the zero-volatility portfolio [0] gives
0 when the return matches the risk-free rate and minus infinity otherwise,
for both objectives; with volatility 1 both objectives give the negated
excess return. -/
theorem C2_witness :
    get_negative_sharpe_ratio [0] [1] [[1]] 0 = .ok (.val 0) ∧
    get_negative_sharpe_ratio [0] [1] [[1]] 1 = .ok .negInf ∧
    get_negative_sharpe_ratio [1] [1] [[1]] 0 = .ok (.val (-((1 - 0) / 1))) ∧
    get_negative_naive_sharpe_ratio [0] [1] [1] 0 = .ok (.val 0) ∧
    get_negative_naive_sharpe_ratio [0] [1] [1] 1 = .ok .negInf ∧
    get_negative_naive_sharpe_ratio [1] [2] [1] 0 = .ok (.val (-((2 - 0) / 1))) := by
  have hz : get_portfolio_stats [0] [1] [[1]] = .ok (0, some 0) := by
    simp [ get_portfolio_stats, dotF, dotR, matvec, matvecR, sqrtF, Real.sqrt_zero]
  have ho : get_portfolio_stats [1] [1] [[1]] = .ok (1, some 1) := by
    simp [ get_portfolio_stats, dotF, dotR, matvec, matvecR, sqrtF, Real.sqrt_one]
  refine ⟨?_, ?_, ?_, ?_, ?_, ?_⟩
  · exact C2_zero_volatility_sentinels.1 [0] [1] [[1]] 0 0 hz rfl
  · exact C2_zero_volatility_sentinels.2.1 [0] [1] [[1]] 1 0 hz (by norm_num)
  · exact C2_zero_volatility_sentinels.2.2.1 [1] [1] [[1]] 0 1 1 ho (by norm_num)
  · have h := C2_zero_volatility_sentinels.2.2.2.1 [0] [1] [1] 0
      (by simp) (by simp) (by simp [dotR]) (by simp [dotR])
    exact h
  · have h := C2_zero_volatility_sentinels.2.2.2.2.1 [0] [1] [1] 1
      (by simp) (by simp) (by simp [dotR]) (by simp [dotR])
    exact h
  · have h := C2_zero_volatility_sentinels.2.2.2.2.2 [1] [2] [1] 0
      (by simp) (by simp) (by simp [dotR])
    have hm : dotR [1] [2] = (2 : ℝ) := by simp [dotR]
    have hv : dotR [1] [1] = (1 : ℝ) := by simp [dotR]
    rw [hm, hv] at h
    exact h

/-- C3 counterexample: with mean returns [0, 1], identity covariance, a
solver returning the half-and-half min-volatility portfolio (whose return is
1 divided by 2) and numPoints = 1, the grid produced by the sweep is the
single value 1 divided by 2: the upper bound, the maximum single-asset mean
return 1, is not in the grid, so for numPoints = 1 both endpoints are not
included as the claim states for every numPoints at least 1. -/
theorem C3_counterexample :
    calculate_efficient_frontier (oracleConst halfRes) [0, 1] [[1, 0], [0, 1]] 1 =
      .ok ([1 / 2], [PyFloat.val 0]) ∧
    seriesMax [0, 1] = 1 ∧ ((1 : ℝ) / 2) ≠ 1 := by
  have hstats : get_portfolio_stats [1 / 2, 1 / 2] [0, 1] [[1, 0], [0, 1]] =
      .ok (1 / 2, some (Real.sqrt (1 / 2))) := by
    simp [ get_portfolio_stats, dotF, dotR, matvec, matvecR, sqrtF]
    norm_num
  have h := frontier_eq_of_min_vol_success (oracleConst halfRes)
    [0, 1] [[1, 0], [0, 1]] 1 (1 / 2) (some (Real.sqrt (1 / 2))) rfl hstats
  refine ⟨?_, by simp [seriesMax], by norm_num⟩
  rw [h]
  simp [linspace_one, oracleConst, halfRes, seriesMax]

/-- C3 amended: once the min-volatility solve succeeds, for numPoints at
least 2 the target-return grid has exactly numPoints entries, starts at the
min-volatility portfolio return, ends at the maximum single-asset mean
return, and is equally spaced; for numPoints = 1 the grid is the single
lower-bound point, so the upper endpoint is in general not included. -/
theorem C3_amended (minimize : MinimizeProblem → OptResult)
    (m : Vec) (C : Mat) (n : ℕ) (a : ℝ) (vv : Option ℝ)
    (hs : (minimize (minVolProblem m C)).success = true)
    (hstats : get_portfolio_stats (minimize (minVolProblem m C)).x m C = .ok (a, vv))
    (hn : 2 ≤ n) :
    (∃ vols, calculate_efficient_frontier minimize m C n =
        .ok (linspace a (seriesMax m) n, vols)) ∧
    (linspace a (seriesMax m) n).length = n ∧
    (linspace a (seriesMax m) n).getD 0 0 = a ∧
    (linspace a (seriesMax m) n).getD (n - 1) 0 = seriesMax m ∧
    (∀ i, i + 1 < n →
      (linspace a (seriesMax m) n).getD (i + 1) 0 -
        (linspace a (seriesMax m) n).getD i 0 =
        (seriesMax m - a) / ((n : ℝ) - 1)) ∧
    (∃ vols1, calculate_efficient_frontier minimize m C 1 = .ok ([a], vols1)) := by
  refine ⟨⟨_, frontier_eq_of_min_vol_success minimize m C n a vv hs hstats⟩,
    linspace_length a (seriesMax m) n,
    linspace_getD_zero a (seriesMax m) n (by omega),
    linspace_getD_last a (seriesMax m) n hn,
    fun i hi => linspace_spacing a (seriesMax m) n i hn hi, ?_⟩
  have h1 := frontier_eq_of_min_vol_success minimize m C 1 a vv hs hstats
  rw [linspace_one] at h1
  exact ⟨_, h1⟩

/-- C3 amended, witnessed: with mean returns [0, 1], identity covariance,
the half-and-half min-volatility solution and numPoints = 2, the grid is
produced with 2 entries, first entry 1 divided by 2 and last entry 1. -/
theorem C3_amended_witness :
    (∃ vols, calculate_efficient_frontier (oracleConst halfRes)
        [0, 1] [[1, 0], [0, 1]] 2 =
        .ok (linspace (1 / 2) (seriesMax [0, 1]) 2, vols)) ∧
    (linspace (1 / 2) (seriesMax [0, 1]) 2).length = 2 ∧
    (linspace (1 / 2) (seriesMax [0, 1]) 2).getD 0 0 = 1 / 2 ∧
    (linspace (1 / 2) (seriesMax [0, 1]) 2).getD 1 0 = seriesMax [0, 1] := by
  have hstats : get_portfolio_stats [1 / 2, 1 / 2] [0, 1] [[1, 0], [0, 1]] =
      .ok (1 / 2, some (Real.sqrt (1 / 2))) := by
    simp [ get_portfolio_stats, dotF, dotR, matvec, matvecR, sqrtF]
    norm_num
  have h := C3_amended (oracleConst halfRes) [0, 1] [[1, 0], [0, 1]] 2
    (1 / 2) (some (Real.sqrt (1 / 2))) rfl hstats (by omega)
  exact ⟨h.1, h.2.1, h.2.2.1, h.2.2.2.1⟩

/-- C4: once the initial min-volatility solve succeeds, the frontier sweep
returns normally for every per-point solver behaviour: the volatility
sequence pairs one entry per target, recording the achieved value on a
successful solve and the NaN marker on a failed one, so its length always
equals numPoints and no per-point failure raises or drops a point. -/
theorem C4_sweep_length_and_nan (minimize : MinimizeProblem → OptResult)
    (m : Vec) (C : Mat) (n : ℕ) (a : ℝ) (vv : Option ℝ)
    (hs : (minimize (minVolProblem m C)).success = true)
    (hstats : get_portfolio_stats (minimize (minVolProblem m C)).x m C = .ok (a, vv)) :
    calculate_efficient_frontier minimize m C n =
      .ok (linspace a (seriesMax m) n,
        (linspace a (seriesMax m) n).map (fun t =>
          if (minimize (frontierPointProblem m C t)).success then
            PyFloat.val (minimize (frontierPointProblem m C t)).objValue
          else PyFloat.nan)) ∧
    ((linspace a (seriesMax m) n).map (fun t =>
        if (minimize (frontierPointProblem m C t)).success then
          PyFloat.val (minimize (frontierPointProblem m C t)).objValue
        else PyFloat.nan)).length = n ∧
    (∀ t, (minimize (frontierPointProblem m C t)).success = false →
      (if (minimize (frontierPointProblem m C t)).success then
          PyFloat.val (minimize (frontierPointProblem m C t)).objValue
        else PyFloat.nan) = PyFloat.nan) := by
  refine ⟨frontier_eq_of_min_vol_success minimize m C n a vv hs hstats, ?_, ?_⟩
  · rw [List.length_map, linspace_length]
  · intro t ht
    rw [ht]
    simp

/-- C4 witnessed: a solver that succeeds on the min-volatility task but
fails on every per-point solve still yields a normal result with one NaN
entry per target: three targets, three NaN markers. -/
theorem C4_sweep_witness :
    calculate_efficient_frontier (oracleSplit okOne failResA) [2] [[1]] 3 =
      .ok (linspace 2 (seriesMax [2]) 3,
        [PyFloat.nan, PyFloat.nan, PyFloat.nan]) ∧
    [PyFloat.nan, PyFloat.nan, PyFloat.nan].length = 3 := by
  have hstats : get_portfolio_stats [1] [2] [[1]] = .ok (2, some 1) := by
    simp [ get_portfolio_stats, dotF, dotR, matvec, matvecR, sqrtF, Real.sqrt_one]
  have h := C4_sweep_length_and_nan (oracleSplit okOne failResA) [2] [[1]] 3
    2 (some 1) rfl hstats
  have hmap : (linspace 2 (seriesMax [2]) 3).map (fun t =>
      if ((oracleSplit okOne failResA) (frontierPointProblem [2] [[1]] t)).success then
        PyFloat.val ((oracleSplit okOne failResA) (frontierPointProblem [2] [[1]] t)).objValue
      else PyFloat.nan) = [PyFloat.nan, PyFloat.nan, PyFloat.nan] := by
    have hlen : (linspace 2 (seriesMax [2]) 3).length = 3 :=
      linspace_length 2 (seriesMax [2]) 3
    have hconst : ∀ t : ℝ,
        (if ((oracleSplit okOne failResA) (frontierPointProblem [2] [[1]] t)).success then
          PyFloat.val ((oracleSplit okOne failResA) (frontierPointProblem [2] [[1]] t)).objValue
        else PyFloat.nan) = PyFloat.nan := by
      intro t
      simp [oracleSplit, frontierPointProblem, failResA]
    rcases hlin : linspace 2 (seriesMax [2]) 3 with _ | ⟨x1, _ | ⟨x2, _ | ⟨x3, rest⟩⟩⟩ <;>
      rw [hlin] at hlen <;> simp at hlen
    subst hlen
    simp [hconst]
  rw [hmap] at h
  exact ⟨h.1, rfl⟩

/-- C5 counterexample: two non-converged solves that differ in their last
objective value (1 against 2) and their iteration count (7 against 9) but
share the solver message produce exactly the same raised error, so the error
raised by a single-task optimization carries neither the last objective
value nor the iteration count, contrary to the claim. -/
theorem C5_counterexample :
    find_max_sharpe_portfolio (oracleConst failResA) [1] [[1]] 0 =
      .error "Optimization failed: msg" ∧
    find_max_sharpe_portfolio (oracleConst failResB) [1] [[1]] 0 =
      .error "Optimization failed: msg" ∧
    find_max_sharpe_portfolio (oracleConst failResA) [1] [[1]] 0 =
      find_max_sharpe_portfolio (oracleConst failResB) [1] [[1]] 0 ∧
    failResA.objValue ≠ failResB.objValue ∧
    failResA.nit ≠ failResB.nit := by
  refine ⟨rfl, rfl, rfl, ?_, by decide⟩
  show (1 : ℝ) ≠ 2
  norm_num

/-- C5 amended: on a non-converged solve, each single-task optimization
(Max-Sharpe, Min-Volatility, Naive-Max-Sharpe) raises an error that
interpolates only the solver message string, and returns no weight
vector. -/
theorem C5_amended (minimize : MinimizeProblem → OptResult)
    (m iv : Vec) (C : Mat) (rf : ℝ)
    (h1 : (minimize (maxSharpeProblem m C rf)).success = false)
    (h2 : (minimize (minVolProblem m C)).success = false)
    (h3 : (minimize (naiveSharpeProblem m iv rf)).success = false) :
    find_max_sharpe_portfolio minimize m C rf =
      .error ("Optimization failed: " ++ (minimize (maxSharpeProblem m C rf)).message) ∧
    find_min_volatility_portfolio minimize m C =
      .error ("Optimization failed: " ++ (minimize (minVolProblem m C)).message) ∧
    find_max_naive_sharpe_portfolio minimize m iv rf =
      .error ("Naive optimization failed: " ++
        (minimize (naiveSharpeProblem m iv rf)).message) := by
  refine ⟨?_, ?_, ?_⟩
  · simp [find_max_sharpe_portfolio, h1]
  · simp [find_min_volatility_portfolio, h2]
  · simp [find_max_naive_sharpe_portfolio, h3]

/-- C5 amended, witnessed: with a solver that always fails with message msg,
each of the three single-task optimizations returns its error with only that
message interpolated. -/
theorem C5_amended_witness :
    find_max_sharpe_portfolio (oracleConst failResA) [1] [[1]] 0 =
      .error "Optimization failed: msg" ∧
    find_min_volatility_portfolio (oracleConst failResA) [1] [[1]] =
      .error "Optimization failed: msg" ∧
    find_max_naive_sharpe_portfolio (oracleConst failResA) [1] [1] 0 =
      .error "Naive optimization failed: msg" := by
  have h := C5_amended (oracleConst failResA) [1] [1] [[1]] 0 rfl rfl rfl
  exact h

/-- C6: whenever the weight vector, the mean-return vector and the row and
column counts of a rectangular covariance matrix are not all of equal
length, get_portfolio_stats fails with the dimension-mismatch error and
never returns a statistics pair. -/
theorem C6_shape_mismatch_fails (w m : Vec) (C : Mat)
    (hrect : ∀ row ∈ C, row.length = matCols C)
    (hmis : ¬ (w.length = m.length ∧ C.length = w.length ∧ matCols C = w.length)) :
    get_portfolio_stats w m C = .error "shapes not aligned" ∧
    ∀ rv : ℝ × Option ℝ, get_portfolio_stats w m C ≠ .ok rv := by
  have h := stats_error_of_mismatch w m C hrect hmis
  exact ⟨h, by simp [h]⟩

/-- C6 witnessed: a 1-entry weight vector against a 2-entry mean-return
vector and a 1 by 1 covariance matrix fails with the dimension-mismatch
error. -/
theorem C6_shape_mismatch_witness :
    get_portfolio_stats [1] [1, 2] [[1]] = .error "shapes not aligned" := by
  have h := C6_shape_mismatch_fails [1] [1, 2] [[1]]
    (by simp [matCols]) (by simp)
  exact h.1

/-- C7 counterexample: at a concrete input, none of the four minimize call
sites passes a tol argument or ftol or maxiter options (all three fields are
none at each site), so no constraint tolerance 1e-8, objective tolerance
1e-9 or iteration cap near 200 is supplied as a tunable parameter; scipy
falls back to its own built-in SLSQP defaults. -/
theorem C7_counterexample :
    (maxSharpeProblem [1] [[1]] 0).tol = none ∧
    (maxSharpeProblem [1] [[1]] 0).optionsFtol = none ∧
    (maxSharpeProblem [1] [[1]] 0).optionsMaxiter = none ∧
    (minVolProblem [1] [[1]]).tol = none ∧
    (minVolProblem [1] [[1]]).optionsFtol = none ∧
    (minVolProblem [1] [[1]]).optionsMaxiter = none ∧
    (naiveSharpeProblem [1] [1] 0).tol = none ∧
    (naiveSharpeProblem [1] [1] 0).optionsFtol = none ∧
    (naiveSharpeProblem [1] [1] 0).optionsMaxiter = none ∧
    (frontierPointProblem [1] [[1]] 1).tol = none ∧
    (frontierPointProblem [1] [[1]] 1).optionsFtol = none ∧
    (frontierPointProblem [1] [[1]] 1).optionsMaxiter = none :=
  ⟨rfl, rfl, rfl, rfl, rfl, rfl, rfl, rfl, rfl, rfl, rfl, rfl⟩

/-- C7 amended: every solve issued by the engine uses the SLSQP method with
no tolerance or iteration parameter supplied at the call site: the tol
argument and the ftol and maxiter options are absent from all four kinds of
minimize calls, so the solver runs on its library defaults and nothing is
tunable from this code. -/
theorem C7_amended (m iv : Vec) (C : Mat) (rf t : ℝ) :
    ((maxSharpeProblem m C rf).method = "SLSQP" ∧
      (maxSharpeProblem m C rf).tol = none ∧
      (maxSharpeProblem m C rf).optionsFtol = none ∧
      (maxSharpeProblem m C rf).optionsMaxiter = none) ∧
    ((minVolProblem m C).method = "SLSQP" ∧
      (minVolProblem m C).tol = none ∧
      (minVolProblem m C).optionsFtol = none ∧
      (minVolProblem m C).optionsMaxiter = none) ∧
    ((naiveSharpeProblem m iv rf).method = "SLSQP" ∧
      (naiveSharpeProblem m iv rf).tol = none ∧
      (naiveSharpeProblem m iv rf).optionsFtol = none ∧
      (naiveSharpeProblem m iv rf).optionsMaxiter = none) ∧
    ((frontierPointProblem m C t).method = "SLSQP" ∧
      (frontierPointProblem m C t).tol = none ∧
      (frontierPointProblem m C t).optionsFtol = none ∧
      (frontierPointProblem m C t).optionsMaxiter = none) :=
  ⟨⟨rfl, rfl, rfl, rfl⟩, ⟨rfl, rfl, rfl, rfl⟩, ⟨rfl, rfl, rfl, rfl⟩,
    ⟨rfl, rfl, rfl, rfl⟩⟩

/-- C8: when the min-volatility solve succeeds with return r and volatility
v, and the constrained per-point solve at target r converges to the
min-volatility optimum (achieving objective value v, which models the
external SLSQP solver solving that sub-problem exactly), the frontier sweep
with numPoints = 1 returns exactly one point whose target return is r and
whose achieved volatility is v. -/
theorem C8_single_point_frontier (minimize : MinimizeProblem → OptResult)
    (m : Vec) (C : Mat) (r v : ℝ)
    (hs : (minimize (minVolProblem m C)).success = true)
    (hstats : get_portfolio_stats (minimize (minVolProblem m C)).x m C = .ok (r, some v))
    (hps : (minimize (frontierPointProblem m C r)).success = true)
    (hobj : (minimize (frontierPointProblem m C r)).objValue = v) :
    calculate_efficient_frontier minimize m C 1 = .ok ([r], [PyFloat.val v]) := by
  have h := frontier_eq_of_min_vol_success minimize m C 1 r (some v) hs hstats
  rw [linspace_one] at h
  rw [h]
  simp [hps, hobj]

/-- C8 witnessed: with mean returns [2], covariance [[1]], a solver whose
min-volatility answer is the single-asset portfolio (return 2, volatility 1)
and whose per-point solve achieves objective value 1, the one-point frontier
is exactly ([2], [volatility 1]). -/
theorem C8_single_point_witness :
    calculate_efficient_frontier (oracleSplit okOne okPoint) [2] [[1]] 1 =
      .ok ([2], [PyFloat.val 1]) := by
  have hstats : get_portfolio_stats [1] [2] [[1]] = .ok (2, some 1) := by
    simp [ get_portfolio_stats, dotF, dotR, matvec, matvecR, sqrtF, Real.sqrt_one]
  exact C8_single_point_frontier (oracleSplit okOne okPoint) [2] [[1]] 2 1
    rfl hstats rfl rfl

/-- C9: with every division routed through a division operation that flags a
zero divisor, both objective evaluations agree with the originals and never
reach the flagged outcome: the division by the volatility is guarded by the
zero test, so both objectives are total and never divide by zero. -/
theorem C9_no_division_by_zero (w m iv : Vec) (C : Mat) (rf : ℝ) :
    negative_sharpe_checked w m C rf =
      Except.map some ( get_negative_sharpe_ratio w m C rf) ∧
    negative_naive_sharpe_checked w m iv rf =
      Except.map some ( get_negative_naive_sharpe_ratio w m iv rf) := by
  constructor
  · rcases hstats : get_portfolio_stats w m C with e | ⟨r, vol⟩
    · simp [negative_sharpe_checked, get_negative_sharpe_ratio, hstats, Except.map]
    · rcases vol with _ | v
      · simp [negative_sharpe_checked, get_negative_sharpe_ratio, hstats, Except.map]
      · by_cases hv : v = 0
        · simp [negative_sharpe_checked, get_negative_sharpe_ratio, hstats, hv, Except.map]
        · simp [negative_sharpe_checked, get_negative_sharpe_ratio, hstats, hv,
            safeDiv, Except.map]
  · rcases hd1 : dotF w m with _ | r
    · simp [negative_naive_sharpe_checked, get_negative_naive_sharpe_ratio, hd1,
          Except.map]
    · rcases hd2 : dotF w iv with _ | nv
      · simp [negative_naive_sharpe_checked, get_negative_naive_sharpe_ratio,
          hd1, hd2, Except.map]
      · by_cases hv : nv = 0
        · simp [negative_naive_sharpe_checked, get_negative_naive_sharpe_ratio,
            hd1, hd2, hv, Except.map]
        · simp [negative_naive_sharpe_checked, get_negative_naive_sharpe_ratio,
            hd1, hd2, hv, safeDiv, Except.map]

/-- C10: if the initial min-volatility solve of the frontier sweep does not
converge, the sweep propagates exactly the min-volatility error: the whole
call fails with that error, no frontier point is computed and no partial
output is returned, for every requested number of points. -/
theorem C10_min_vol_failure_propagates (minimize : MinimizeProblem → OptResult)
    (m : Vec) (C : Mat) (n : ℕ)
    (hf : (minimize (minVolProblem m C)).success = false) :
    find_min_volatility_portfolio minimize m C =
      .error ("Optimization failed: " ++ (minimize (minVolProblem m C)).message) ∧
    calculate_efficient_frontier minimize m C n =
      .error ("Optimization failed: " ++ (minimize (minVolProblem m C)).message) ∧
    ∀ out : List ℝ × List PyFloat,
      calculate_efficient_frontier minimize m C n ≠ .ok out := by
  have hmv : find_min_volatility_portfolio minimize m C =
      .error ("Optimization failed: " ++ (minimize (minVolProblem m C)).message) := by
    simp [find_min_volatility_portfolio, hf]
  have hfr : calculate_efficient_frontier minimize m C n =
      .error ("Optimization failed: " ++ (minimize (minVolProblem m C)).message) := by
    unfold calculate_efficient_frontier
    rw [hmv]
  exact ⟨hmv, hfr, by simp [hfr]⟩

/-- C10 witnessed: with a solver that always fails with message msg, the
frontier sweep for 5 points fails with exactly the min-volatility error. -/
theorem C10_min_vol_failure_witness :
    find_min_volatility_portfolio (oracleConst failResA) [1] [[1]] =
      .error "Optimization failed: msg" ∧
    calculate_efficient_frontier (oracleConst failResA) [1] [[1]] 5 =
      .error "Optimization failed: msg" := by
  have h := C10_min_vol_failure_propagates (oracleConst failResA) [1] [[1]] 5 rfl
  exact ⟨h.1, h.2.1⟩

end

end PortfolioOptimizer
